import Mathlib

/-
  Verification development for the Channel Optimization Analyzer
  (src/Channel_Optimization_Analyzer/channel_optimizer.py and
   src/Channel_Optimization_Analyzer/visualize_plan.py).

  Modelling conventions:
  * Python floats are modelled as exact rationals (ℚ).  On every input the
    claims touch, the Python double arithmetic is exact (25 * 1.4 == 35.0 and
    387.5 * 1.3 rounds to exactly 503.75 in binary64), so the rational model
    agrees with the float execution there.
  * `math.ceil` on a rational is `Int.ceil`; Python's banker-style
    `round(x, 2)` is `pyRound2` below.
  * Python dicts holding input data (device mixes) are association lists in
    insertion order; `dict.get key default` is `List.lookup` + `getD`.
  * The random calls in `detect_interference_sources`
    (`random.randint(2, 4)` and `random.sample`) are modelled by oracle
    parameters: the drawn size `k` and the drawn index list `sel`, with the
    contracts of the library calls (2 ≤ k ≤ 4, distinct indices of length k)
    as hypotheses.
  * File I/O and the timestamp are boundary effects: the report record is
    returned as a value, and the Visualizer receives `Option` of the report
    (`none` = the report file is absent).  Python exceptions on the
    Visualizer side are the `Except` error branch.
-/

namespace ChannelOpt

/-- A 2.4 GHz catalog entry: center frequency and the non-overlapping flag
(`channels_24ghz` values in `ChannelOptimizer.__init__`). -/
structure Channel24Info where
  frequency : ℕ
  non_overlapping : Bool
deriving Repr, DecidableEq

/-- A 5 GHz catalog entry: center frequency and bonded bandwidth
(`channels_5ghz` values in `ChannelOptimizer.__init__`). -/
structure Channel5Info where
  frequency : ℕ
  bandwidth : ℕ
deriving Repr, DecidableEq

/-- `self.channels_24ghz`: the three non-overlapping 2.4 GHz channels, in
insertion order. -/
def channels_24ghz : List (ℕ × Channel24Info) :=
  [(1, ⟨2412, true⟩), (6, ⟨2437, true⟩), (11, ⟨2462, true⟩)]

/-- `self.channels_5ghz`: the eight non-DFS 5 GHz channels, in insertion
order. -/
def channels_5ghz : List (ℕ × Channel5Info) :=
  [(36, ⟨5180, 20⟩), (40, ⟨5200, 20⟩), (44, ⟨5220, 20⟩), (48, ⟨5240, 20⟩),
   (149, ⟨5745, 20⟩), (153, ⟨5765, 20⟩), (157, ⟨5785, 20⟩), (161, ⟨5805, 20⟩)]

/-- `list(self.channels_5ghz.keys())`. -/
def channels_5ghz_keys : List ℕ := channels_5ghz.map Prod.fst

/-- `calculate_channel_overlap(ch1, ch2, band)`: overlap percentage between
two channels.  Channels are Python ints (ℤ); the result is a number (ℚ). -/
def calculate_channel_overlap (ch1 ch2 : ℤ) (band : String) : ℚ :=
  if band = "2.4" then
    let separation : ℤ := |ch1 - ch2| * 5
    if separation ≥ 25 then 0
    else if separation = 0 then 100
    else (25 - (separation : ℚ)) / 25 * 100
  else
    if ch1 = ch2 then 100 else 0

/-- The `dimensions` sub-record of a layout analysis. -/
structure Dimensions where
  width : ℚ
  length : ℚ
  height : ℚ
deriving Repr, DecidableEq

/-- The `ap_grid` sub-record of a layout analysis (`math.ceil` results are
Python ints, hence ℤ). -/
structure ApGrid where
  width : ℤ
  length : ℤ
deriving Repr, DecidableEq

/-- The record returned by `analyze_warehouse_layout`. -/
structure WarehouseLayout where
  dimensions : Dimensions
  coverage_radius : ℚ
  grid_spacing : ℚ
  ap_grid : ApGrid
  total_aps : ℤ
  vertical_consideration : String
deriving Repr, DecidableEq

/-- `analyze_warehouse_layout(width_m, length_m, height_m)`. -/
def analyze_warehouse_layout (width_m length_m height_m : ℚ) : WarehouseLayout :=
  let coverage_radius : ℚ := 25
  let grid_spacing : ℚ := coverage_radius * 1.4
  let aps_width : ℤ := ⌈width_m / grid_spacing⌉
  let aps_length : ℤ := ⌈length_m / grid_spacing⌉
  let total_aps : ℤ := aps_width * aps_length
  let vertical_consideration : String :=
    if height_m > 10 then "High ceiling detected - consider downtilt antennas"
    else "Standard ceiling height - omnidirectional antennas suitable"
  { dimensions := ⟨width_m, length_m, height_m⟩
    coverage_radius := coverage_radius
    grid_spacing := grid_spacing
    ap_grid := ⟨aps_width, aps_length⟩
    total_aps := total_aps
    vertical_consideration := vertical_consideration }

/-- `_calculate_tx_power(coverage_radius)`. -/
def _calculate_tx_power (coverage_radius : ℚ) : String :=
  if coverage_radius ≤ 20 then "Low (10-13 dBm)"
  else if coverage_radius ≤ 30 then "Medium (14-17 dBm)"
  else "High (18-20 dBm)"

/-- `_create_channel_pattern(channels, width)`: the channel list itself for
small grids, else the list cycled to length `width`. -/
def _create_channel_pattern (channels : List ℕ) (width : ℕ) : List ℕ :=
  if width ≤ channels.length then channels
  else (List.range width).map (fun i => channels.getD (i % channels.length) 0)

/-- One `ap_config` entry produced by `generate_channel_plan` (the `AP-NNN`
identifier is kept as its sequential number). -/
structure APConfig where
  ap_id : ℕ
  row : ℕ
  col : ℕ
  channel : ℕ
  band : String
  tx_power : String
deriving Repr, DecidableEq, Inhabited

/-- The channels list chosen by `generate_channel_plan` for the band. -/
def band_channels (use_5ghz : Bool) : List ℕ :=
  if use_5ghz then channels_5ghz_keys else [1, 6, 11]

/-- `generate_channel_plan(layout_analysis, use_5ghz)`: one `ap_config` per
grid cell, rows outermost (`for row in range(length): for col in
range(width)`), channel taken from the pattern at
`(col + row * width) % len(pattern)`. -/
def generate_channel_plan (layout_analysis : WarehouseLayout) (use_5ghz : Bool) :
    List APConfig :=
  let cols : ℕ := layout_analysis.ap_grid.width.toNat
  let rows : ℕ := layout_analysis.ap_grid.length.toNat
  let channels : List ℕ := band_channels use_5ghz
  let channel_pattern : List ℕ := _create_channel_pattern channels cols
  (List.range rows).flatMap (fun row =>
    (List.range cols).map (fun col =>
      { ap_id := row * cols + col + 1
        row := row
        col := col
        channel := channel_pattern.getD ((col + row * cols) % channel_pattern.length) 0
        band := if use_5ghz then "5GHz" else "2.4GHz"
        tx_power := _calculate_tx_power layout_analysis.coverage_radius }))

/-- Python's `round(x, 2)` (round half to even at the second decimal). -/
def pyRound2 (q : ℚ) : ℚ :=
  ((if q * 100 - ⌊q * 100⌋ > 1/2 then ⌊q * 100⌋ + 1
    else if q * 100 - ⌊q * 100⌋ < 1/2 then ⌊q * 100⌋
    else if ⌊q * 100⌋ % 2 = 0 then ⌊q * 100⌋ else ⌊q * 100⌋ + 1 : ℤ) : ℚ) / 100

/-- The `bandwidth_per_device` dict of `calculate_capacity_requirements`
(Mbps per device type), in insertion order. -/
def bandwidth_per_device : List (String × ℚ) :=
  [("handheld_scanner", 0.5), ("tablet", 2), ("laptop", 5),
   ("voice_device", 0.1), ("iot_sensor", 0.05), ("mobile_robot", 1)]

/-- `bandwidth_per_device.get(device_type, 1)`. -/
def bandwidth_per_device_get (device_type : String) : ℚ :=
  (bandwidth_per_device.lookup device_type).getD 1

/-- One `device_breakdown` entry of the capacity analysis. -/
structure BreakdownEntry where
  device_type : String
  count : ℕ
  bandwidth_per_device : ℚ
  total_bandwidth : ℚ
deriving Repr, DecidableEq

/-- The record returned by `calculate_capacity_requirements`. -/
structure CapacityRequirements where
  total_devices : ℕ
  device_breakdown : List BreakdownEntry
  total_bandwidth_required : ℚ
  aps_for_capacity : ℤ
deriving Repr, DecidableEq

/-- `calculate_capacity_requirements(num_devices, device_types)`.  The
`device_types` dict is an association list in insertion order. -/
def calculate_capacity_requirements (num_devices : ℕ)
    (device_types : List (String × ℕ)) : CapacityRequirements :=
  let total_bandwidth : ℚ :=
    device_types.foldl (fun acc p => acc + bandwidth_per_device_get p.1 * (p.2 : ℚ)) 0
  let device_breakdown : List BreakdownEntry :=
    device_types.map (fun p =>
      ⟨p.1, p.2, bandwidth_per_device_get p.1, bandwidth_per_device_get p.1 * (p.2 : ℚ)⟩)
  let total_with_overhead : ℚ := total_bandwidth * 1.3
  { total_devices := num_devices
    device_breakdown := device_breakdown
    total_bandwidth_required := pyRound2 total_with_overhead
    aps_for_capacity := ⌈total_with_overhead / 150⌉ }

/-- One entry of the fixed interference catalog. -/
structure InterferenceSource where
  type : String
  frequency : String
  impact : String
  mitigation : String
deriving Repr, DecidableEq

/-- The fixed `interference_sources` catalog of
`detect_interference_sources`. -/
def interference_sources : List InterferenceSource :=
  [⟨"Bluetooth devices", "2.4 GHz", "Low", "Use 5GHz band for critical devices"⟩,
   ⟨"Microwave ovens (break rooms)", "2.45 GHz", "High", "Avoid channel 9-11 near break areas"⟩,
   ⟨"Wireless barcode scanners", "2.4 GHz", "Medium", "Implement band steering to 5GHz"⟩,
   ⟨"Security cameras (wireless)", "2.4/5 GHz", "Medium", "Use wired backhaul for cameras"⟩,
   ⟨"Industrial equipment (variable frequency drives)", "Broadband noise", "Low-Medium",
    "Ensure proper equipment shielding"⟩]

/-- `detect_interference_sources()`.  The random draw
`random.sample(interference_sources, k=random.randint(2, 4))` is an oracle
parameter `sel`: the distinct catalog indices the library call picked, in
order.  The contracts of the library calls — `sel` has no repeats and its
length (the `randint` result `k`) lies in `[2, 4]` — are hypotheses of the
theorems about this function. -/
def detect_interference_sources
    (sel : List (Fin interference_sources.length)) : List InterferenceSource :=
  sel.map interference_sources.get

/-- The `device_info` argument of `generate_optimization_report`. -/
structure DeviceInfo where
  total_devices : ℕ
  device_types : List (String × ℕ)
deriving Repr, DecidableEq

/-- The report assembled by `generate_optimization_report` (the timestamp
and the JSON persistence are I/O boundary effects and not part of the
value model). -/
structure OptimizationReport where
  warehouse : String
  recommended_aps : ℤ
  primary_band : String
  secondary_band : String
  estimated_coverage : String
  layout_analysis : WarehouseLayout
  capacity_analysis : CapacityRequirements
  channel_plan_total_aps : ℕ
  channels_used : List ℕ
  sample_assignments : List APConfig
  interference_analysis : List InterferenceSource
  recommendations : List String
deriving Repr, DecidableEq

/-- `generate_optimization_report(warehouse_name, dimensions, device_info)`;
`sel` is the random-oracle parameter consumed by the embedded
`detect_interference_sources` call.  `channels_used` models
`list(set(...))` as first-occurrence deduplication (the claims never
depend on the order of that list). -/
def generate_optimization_report (warehouse_name : String) (dimensions : Dimensions)
    (device_info : DeviceInfo)
    (sel : List (Fin interference_sources.length)) : OptimizationReport :=
  let layout := analyze_warehouse_layout dimensions.width dimensions.length dimensions.height
  let channel_plan := generate_channel_plan layout true
  let interference := detect_interference_sources sel
  let capacity := calculate_capacity_requirements device_info.total_devices
    device_info.device_types
  let final_ap_count : ℤ := max layout.total_aps capacity.aps_for_capacity
  { warehouse := warehouse_name
    recommended_aps := final_ap_count
    primary_band := "5 GHz"
    secondary_band := "2.4 GHz (IoT and legacy devices)"
    estimated_coverage := "99.9%"
    layout_analysis := layout
    capacity_analysis := capacity
    channel_plan_total_aps := channel_plan.length
    channels_used := (channel_plan.map APConfig.channel).dedup
    sample_assignments := channel_plan.take 5
    interference_analysis := interference
    recommendations :=
      ["Deploy " ++ toString final_ap_count ++ " access points in a grid pattern",
       "Use 5 GHz as primary band with DFS channels enabled",
       "Implement band steering to move capable devices to 5 GHz",
       "Configure 20 MHz channels for maximum capacity",
       "Set TX power to medium (14-17 dBm) for optimal coverage",
       "Enable 802.11k/v/r for seamless roaming",
       "Implement QoS with voice devices on highest priority"] }

/-- `visualize_channel_plan(report_file)` from `visualize_plan.py`.  The
input is the parsed report file (`none` when the file is absent, the
`FileNotFoundError` branch).  The result is the printed output; the
`Except` error branch carries the Python exceptions the success path can
raise (`ZeroDivisionError` building `channel_pattern` from an empty
`channels_used`, `ValueError` from `min()` over an empty separation
sequence, `ZeroDivisionError` in the area-per-AP statistic).  The ASCII
grid rendering is condensed to its summary lines. -/
def visualize_channel_plan (file_contents : Option OptimizationReport) :
    Except String (List String) :=
  match file_contents with
  | none => Except.ok ["No report found. Run channel_optimizer.py first."]
  | some report =>
    let width : ℤ := report.layout_analysis.ap_grid.width
    let length : ℤ := report.layout_analysis.ap_grid.length
    let channels_used : List ℕ := report.channels_used
    if channels_used.length = 0 then
      Except.error "ZeroDivisionError: integer division or modulo by zero"
    else if channels_used.length < 2 then
      Except.error "ValueError: min() arg is an empty sequence"
    else
      let sorted_channels := channels_used.insertionSort (· ≤ ·)
      let separations := (sorted_channels.zip sorted_channels.tail).map
        (fun p => p.2 - p.1)
      let min_separation : ℕ := separations.foldr min (separations.headD 0)
      if width * length = 0 then
        Except.error "ZeroDivisionError: division by zero"
      else
        Except.ok
          ["Facility: " ++ report.warehouse,
           "Grid Size: " ++ toString width ++ " x " ++ toString length ++ " APs",
           "Minimum channel separation: " ++ toString (min_separation * 5) ++ " MHz",
           "APs deployed: " ++ toString (width * length)]

/-- The example device mix of `main()`
(`warehouse_config["devices"]["device_types"]`). -/
def example_device_types : List (String × ℕ) :=
  [("handheld_scanner", 200), ("tablet", 50), ("laptop", 30),
   ("voice_device", 150), ("iot_sensor", 50), ("mobile_robot", 20)]

/-- The example facility dimensions of `main()` (200 m × 300 m × 12 m). -/
def example_dimensions : Dimensions := ⟨200, 300, 12⟩

/-- The example `device_info` of `main()` (500 devices, the example mix). -/
def example_device_info : DeviceInfo := ⟨500, example_device_types⟩

/-- A layout value with a 2-column, 3-row AP grid (narrower than the three
2.4 GHz channels), used to instantiate the channel-plan theorems. -/
def sample_layout_narrow : WarehouseLayout :=
  ⟨⟨50, 75, 8⟩, 25, 35, ⟨2, 3⟩, 6,
   "Standard ceiling height - omnidirectional antennas suitable"⟩

/-- A layout value with a 4-column, 2-row AP grid (wider than the three
2.4 GHz channels), used to instantiate the co-channel-column theorem. -/
def sample_layout_wide : WarehouseLayout :=
  ⟨⟨130, 60, 8⟩, 25, 35, ⟨4, 2⟩, 8,
   "Standard ceiling height - omnidirectional antennas suitable"⟩

/-- A concrete two-element random draw (catalog indices 0 and 1) used to
instantiate the interference-sampling theorem. -/
def sample_sel : List (Fin interference_sources.length) :=
  [⟨0, by decide⟩, ⟨1, by decide⟩]

end ChannelOpt

namespace ChannelOpt

/-- Folding `acc + f p` over a list from `a` is `a` plus the sum of the
mapped list. -/
theorem foldl_add_map {α : Type} (f : α → ℚ) (l : List α) (a : ℚ) :
    l.foldl (fun acc p => acc + f p) a = a + (l.map f).sum := by
  induction l generalizing a with
  | nil => simp
  | cons x xs ih => simp [ih, add_assoc]

/-- Row-major flattening: iterating `cols` inside `rows` is a single map
over `List.range (rows * cols)`, with row `k / cols` and column
`k % cols`. -/
theorem range_flatMap_map {α : Type} (f : ℕ → ℕ → α) (rows cols : ℕ) :
    (List.range rows).flatMap (fun r => (List.range cols).map (f r)) =
    (List.range (rows * cols)).map (fun k => f (k / cols) (k % cols)) := by
  induction rows with
  | zero => simp
  | succ r ih =>
    rcases Nat.eq_zero_or_pos cols with hc | hc
    · subst hc; simp
    · rw [List.range_succ, List.flatMap_append, ih, Nat.succ_mul, List.range_add,
        List.map_append, List.map_map]
      simp only [List.flatMap_cons, List.flatMap_nil, List.append_nil]
      congr 1
      apply List.map_congr_left
      intro k hk
      rw [List.mem_range] at hk
      have h1 : (r * cols + k) / cols = r := by
        rw [Nat.add_comm, Nat.mul_comm, Nat.add_mul_div_left _ _ hc,
          Nat.div_eq_of_lt hk, Nat.zero_add]
      have h2 : (r * cols + k) % cols = k := by
        rw [Nat.add_comm, Nat.add_mul_mod_self_right, Nat.mod_eq_of_lt hk]
      simp [Function.comp, h1, h2]

/-- `getD` of a mapped range evaluates the mapped function inside the
range. -/
theorem getD_map_range {α : Type} (g : ℕ → α) (n k : ℕ) (d : α) (h : k < n) :
    ((List.range n).map g).getD k d = g k := by
  simp [List.getD_eq_getElem?_getD, List.getElem?_map, List.getElem?_range, h]

/-- Looking up a key that is not among the first components of an
association list yields `none`. -/
theorem lookup_eq_none_of_not_mem_keys (l : List (String × ℚ)) (s : String)
    (hs : s ∉ l.map Prod.fst) : l.lookup s = none := by
  induction l with
  | nil => rfl
  | cons x xs ih =>
    obtain ⟨k, v⟩ := x
    rw [List.map_cons, List.mem_cons, not_or] at hs
    have hk : (s == k) = false := beq_eq_false_iff_ne.mpr hs.1
    rw [List.lookup, hk, ih hs.2]

/-- `pyRound2` is the identity on rationals that are already an integer
number of hundredths. -/
theorem pyRound2_of_int (q : ℚ) (z : ℤ) (h : q * 100 = (z : ℚ)) :
    pyRound2 q = (z : ℚ) / 100 := by
  unfold pyRound2
  rw [h, Int.floor_intCast]
  norm_num

/-- C1: `generate_channel_plan` visits the grid row-major (the k-th entry
sits at row `k / cols`, column `k % cols`, with one entry per cell) and
assigns channels through the pattern built by `_create_channel_pattern`:
the ordered channel list itself when the column count is at most the
number of channels in the selected band, else the channel list cycled to
length `cols` (entry `i` is `channels[i % channelCount]`); each cell
receives `pattern[(col + row * cols) % patternLength]`.  In particular a
2-column grid with the 3-channel 2.4 GHz list keeps the full 3-channel
pattern without truncation. -/
theorem generate_channel_plan_spec (layout : WarehouseLayout) (use_5ghz : Bool) :
    (layout.ap_grid.width.toNat ≤ (band_channels use_5ghz).length →
      _create_channel_pattern (band_channels use_5ghz) layout.ap_grid.width.toNat =
        band_channels use_5ghz)
  ∧ ((band_channels use_5ghz).length < layout.ap_grid.width.toNat →
      (_create_channel_pattern (band_channels use_5ghz) layout.ap_grid.width.toNat).length =
          layout.ap_grid.width.toNat
    ∧ ∀ i < layout.ap_grid.width.toNat,
        (_create_channel_pattern (band_channels use_5ghz) layout.ap_grid.width.toNat).getD i 0 =
          (band_channels use_5ghz).getD (i % (band_channels use_5ghz).length) 0)
  ∧ (generate_channel_plan layout use_5ghz).length =
      layout.ap_grid.length.toNat * layout.ap_grid.width.toNat
  ∧ (∀ k < layout.ap_grid.length.toNat * layout.ap_grid.width.toNat,
      ((generate_channel_plan layout use_5ghz).getD k default).row =
          k / layout.ap_grid.width.toNat
    ∧ ((generate_channel_plan layout use_5ghz).getD k default).col =
          k % layout.ap_grid.width.toNat
    ∧ ((generate_channel_plan layout use_5ghz).getD k default).channel =
        (_create_channel_pattern (band_channels use_5ghz) layout.ap_grid.width.toNat).getD
          ((k % layout.ap_grid.width.toNat +
              (k / layout.ap_grid.width.toNat) * layout.ap_grid.width.toNat) %
            (_create_channel_pattern (band_channels use_5ghz) layout.ap_grid.width.toNat).length)
          0)
  ∧ _create_channel_pattern (band_channels false) 2 = band_channels false := by
  refine ⟨?_, ?_, ?_, ?_, ?_⟩
  · intro h
    unfold _create_channel_pattern
    rw [if_pos h]
  · intro h
    have h2 : ¬ layout.ap_grid.width.toNat ≤ (band_channels use_5ghz).length :=
      Nat.not_le.mpr h
    unfold _create_channel_pattern
    rw [if_neg h2]
    refine ⟨by simp, ?_⟩
    intro i hi
    exact getD_map_range _ _ _ _ hi
  · unfold generate_channel_plan
    rw [range_flatMap_map]
    simp
  · intro k hk
    unfold generate_channel_plan
    rw [range_flatMap_map, getD_map_range _ _ _ _ hk]
    exact ⟨rfl, rfl, rfl⟩
  · decide

/-- C1 witness: on the concrete 2-column, 3-row layout with the 2.4 GHz
band the hypotheses hold and the theorem yields the untruncated pattern
and the channel of the third AP (row 1, column 0). -/
theorem generate_channel_plan_spec_witness :
    _create_channel_pattern (band_channels false)
        sample_layout_narrow.ap_grid.width.toNat = band_channels false
  ∧ ((generate_channel_plan sample_layout_narrow false).getD 2 default).channel = 11 := by
  have h := generate_channel_plan_spec sample_layout_narrow false
  refine ⟨h.1 (by decide), ?_⟩
  have h2 := (h.2.2.2.1 2 (by decide)).2.2
  rw [h2]
  decide

/-- C10: when the grid's column count exceeds the number of channels in
the selected band, the pattern length equals the column count, so the
index `(col + row * cols) % patternLength` collapses to `col`: every AP in
the plan carries `channels[col % channelCount]`, and any two APs in the
same column are co-channel regardless of row. -/
theorem co_channel_columns_spec (layout : WarehouseLayout) (use_5ghz : Bool)
    (hgt : (band_channels use_5ghz).length < layout.ap_grid.width.toNat) :
    (∀ ap ∈ generate_channel_plan layout use_5ghz,
      ap.channel = (band_channels use_5ghz).getD
        (ap.col % (band_channels use_5ghz).length) 0)
  ∧ ∀ ap1 ∈ generate_channel_plan layout use_5ghz,
      ∀ ap2 ∈ generate_channel_plan layout use_5ghz,
        ap1.col = ap2.col → ap1.channel = ap2.channel := by
  have hnle : ¬ layout.ap_grid.width.toNat ≤ (band_channels use_5ghz).length :=
    Nat.not_le.mpr hgt
  have hcols : 0 < layout.ap_grid.width.toNat :=
    Nat.lt_of_le_of_lt (Nat.zero_le _) hgt
  have key : ∀ ap ∈ generate_channel_plan layout use_5ghz,
      ap.channel = (band_channels use_5ghz).getD
        (ap.col % (band_channels use_5ghz).length) 0 ∧
      ap.col < layout.ap_grid.width.toNat := by
    intro ap hap
    unfold generate_channel_plan at hap
    rw [List.mem_flatMap] at hap
    obtain ⟨row, hrow, hap⟩ := hap
    rw [List.mem_map] at hap
    obtain ⟨col, hcol, hap⟩ := hap
    rw [List.mem_range] at hcol
    subst hap
    refine ⟨?_, hcol⟩
    show (_create_channel_pattern (band_channels use_5ghz)
        layout.ap_grid.width.toNat).getD
      ((col + row * layout.ap_grid.width.toNat) %
        (_create_channel_pattern (band_channels use_5ghz)
          layout.ap_grid.width.toNat).length) 0 = _
    unfold _create_channel_pattern
    rw [if_neg hnle]
    have hlen : (((List.range layout.ap_grid.width.toNat).map
        (fun i => (band_channels use_5ghz).getD
          (i % (band_channels use_5ghz).length) 0))).length =
        layout.ap_grid.width.toNat := by simp
    rw [hlen, Nat.add_mul_mod_self_right, Nat.mod_eq_of_lt hcol,
      getD_map_range _ _ _ _ hcol]
  refine ⟨fun ap hap => (key ap hap).1, ?_⟩
  intro ap1 h1 ap2 h2 hcol
  rw [(key ap1 h1).1, (key ap2 h2).1, hcol]

/-- C10 witness: on the concrete 4-column, 2-row layout with the 2.4 GHz
band (3 channels < 4 columns) the hypothesis holds and the second AP
(column 1) carries channel 6 = channels[1 % 3]. -/
theorem co_channel_columns_spec_witness :
    (band_channels false).length < sample_layout_wide.ap_grid.width.toNat
  ∧ ((generate_channel_plan sample_layout_wide false).getD 1 default).channel = 6 := by
  refine ⟨by decide, ?_⟩
  have h := (co_channel_columns_spec sample_layout_wide false (by decide)).1
  have hm : (generate_channel_plan sample_layout_wide false).getD 1 default ∈
      generate_channel_plan sample_layout_wide false := by decide
  rw [h _ hm]
  decide

/-- C3: `analyze_warehouse_layout 200 300 12` yields grid spacing
25 × 1.4 = 35 m, 6 columns, 9 rows, 54 APs in total, and the high-ceiling
advisory (12 > 10), not the omnidirectional-antennas advisory. -/
theorem analyze_warehouse_layout_example_spec :
    (analyze_warehouse_layout 200 300 12).grid_spacing = 25 * 1.4
  ∧ (analyze_warehouse_layout 200 300 12).grid_spacing = 35
  ∧ (analyze_warehouse_layout 200 300 12).ap_grid.width = 6
  ∧ (analyze_warehouse_layout 200 300 12).ap_grid.length = 9
  ∧ (analyze_warehouse_layout 200 300 12).total_aps = 54
  ∧ (analyze_warehouse_layout 200 300 12).vertical_consideration =
      "High ceiling detected - consider downtilt antennas"
  ∧ (analyze_warehouse_layout 200 300 12).vertical_consideration ≠
      "Standard ceiling height - omnidirectional antennas suitable" := by
  have h1 : (⌈(200 : ℚ) / (25 * 1.4)⌉ : ℤ) = 6 := by
    rw [Int.ceil_eq_iff]; norm_num
  have h2 : (⌈(300 : ℚ) / (25 * 1.4)⌉ : ℤ) = 9 := by
    rw [Int.ceil_eq_iff]; norm_num
  have hv : (analyze_warehouse_layout 200 300 12).vertical_consideration =
      "High ceiling detected - consider downtilt antennas" := by
    show (if (12 : ℚ) > 10 then "High ceiling detected - consider downtilt antennas"
      else "Standard ceiling height - omnidirectional antennas suitable") = _
    rw [if_pos (by norm_num)]
  refine ⟨rfl, by show (25 : ℚ) * 1.4 = 35; norm_num, h1, h2, ?_, hv, ?_⟩
  · show ⌈(200 : ℚ) / (25 * 1.4)⌉ * ⌈(300 : ℚ) / (25 * 1.4)⌉ = 54
    rw [h1, h2]; decide
  · rw [hv]; decide

/-- C5: `calculate_channel_overlap` on the 2.4 GHz band returns 0 when the
5 MHz-per-step separation reaches 25 MHz, 100 on equal channels, and the
linear interpolation `(25 − |A−B|·5)/25·100` otherwise; on the 5 GHz band
it returns 100 exactly on equal channels and 0 otherwise. -/
theorem calculate_channel_overlap_spec (a b : ℤ) :
    (|a - b| * 5 ≥ 25 → calculate_channel_overlap a b "2.4" = 0)
  ∧ (a = b → calculate_channel_overlap a b "2.4" = 100)
  ∧ (|a - b| * 5 < 25 → a ≠ b →
      calculate_channel_overlap a b "2.4" = (25 - ((|a - b| : ℤ) : ℚ) * 5) / 25 * 100)
  ∧ (a = b → calculate_channel_overlap a b "5" = 100)
  ∧ (a ≠ b → calculate_channel_overlap a b "5" = 0) := by
  have hb : ("5" : String) ≠ "2.4" := by decide
  refine ⟨?_, ?_, ?_, ?_, ?_⟩
  · intro h
    unfold calculate_channel_overlap
    rw [if_pos rfl, if_pos h]
  · intro h
    subst h
    unfold calculate_channel_overlap
    rw [if_pos rfl, if_neg (by simp), if_pos (by simp)]
  · intro hlt hne
    have hsep : |a - b| * 5 ≠ 0 := by
      have : a - b ≠ 0 := sub_ne_zero.mpr hne
      positivity
    unfold calculate_channel_overlap
    rw [if_pos rfl, if_neg (not_le.mpr hlt), if_neg hsep]
    push_cast
    ring
  · intro h
    unfold calculate_channel_overlap
    rw [if_neg hb, if_pos h]
  · intro h
    unfold calculate_channel_overlap
    rw [if_neg hb, if_neg h]

/-- C5 witness: channels 1 and 6 overlap 0 %, 1 and 1 overlap 100 %, 1 and
3 overlap 60 %; 5 GHz channels 36/36 overlap 100 % and 36/40 overlap
0 %. -/
theorem calculate_channel_overlap_spec_witness :
    calculate_channel_overlap 1 6 "2.4" = 0
  ∧ calculate_channel_overlap 1 1 "2.4" = 100
  ∧ calculate_channel_overlap 1 3 "2.4" = 60
  ∧ calculate_channel_overlap 36 36 "5" = 100
  ∧ calculate_channel_overlap 36 40 "5" = 0 := by
  refine ⟨(calculate_channel_overlap_spec 1 6).1 (by decide),
    (calculate_channel_overlap_spec 1 1).2.1 rfl, ?_,
    (calculate_channel_overlap_spec 36 36).2.2.2.1 rfl,
    (calculate_channel_overlap_spec 36 40).2.2.2.2 (by decide)⟩
  rw [(calculate_channel_overlap_spec 1 3).2.2.1 (by decide) (by decide)]
  norm_num

/-- C6 counterexample: `analyze_warehouse_layout` accepts the non-positive
width 0 and silently returns a layout with zero access points, instead of
surfacing a domain error. -/
theorem analyze_warehouse_layout_zero_width_counterexample :
    (analyze_warehouse_layout 0 300 12).total_aps = 0 := by
  show ⌈(0 : ℚ) / (25 * 1.4)⌉ * ⌈(300 : ℚ) / (25 * 1.4)⌉ = 0
  rw [show ((0 : ℚ) / (25 * 1.4)) = 0 by norm_num, Int.ceil_zero, zero_mul]

/-- C6 amended: `analyze_warehouse_layout` performs no input validation;
it is total, and on a non-positive width it still returns a layout, whose
AP-grid width is ≤ 0, with zero total APs when the width is exactly 0. -/
theorem analyze_warehouse_layout_no_validation (w l h : ℚ) (hw : w ≤ 0) :
    (analyze_warehouse_layout w l h).ap_grid.width ≤ 0
  ∧ (analyze_warehouse_layout 0 l h).total_aps = 0 := by
  constructor
  · show (⌈w / (25 * 1.4)⌉ : ℤ) ≤ 0
    have hq : w / (25 * 1.4) ≤ 0 :=
      div_nonpos_iff.mpr (Or.inr ⟨hw, by norm_num⟩)
    calc (⌈w / (25 * 1.4)⌉ : ℤ) ≤ ⌈(0 : ℚ)⌉ := Int.ceil_le_ceil hq
    _ = 0 := Int.ceil_zero
  · show ⌈(0 : ℚ) / (25 * 1.4)⌉ * ⌈l / (25 * 1.4)⌉ = 0
    rw [show ((0 : ℚ) / (25 * 1.4)) = 0 by norm_num, Int.ceil_zero, zero_mul]

/-- C6 amended witness: at width 0 the hypothesis holds and the returned
layout has AP-grid width ≤ 0 and zero total APs. -/
theorem analyze_warehouse_layout_no_validation_witness :
    (0 : ℚ) ≤ 0
  ∧ ((analyze_warehouse_layout 0 300 12).ap_grid.width ≤ 0
    ∧ (analyze_warehouse_layout 0 300 12).total_aps = 0) :=
  ⟨le_refl 0, analyze_warehouse_layout_no_validation 0 300 12 (le_refl 0)⟩

/-- C4: `calculate_capacity_requirements` sums `lookup(type, default 1) ×
count` over the device mix, multiplies by 1.3, reports that total (rounded
to two decimals) and `⌈total / 150⌉` APs; unknown device-type labels get
the default weight 1; on the example mix the total is 503.75 Mbps and the
AP count is 4. -/
theorem calculate_capacity_requirements_spec :
    (∀ (n : ℕ) (dts : List (String × ℕ)),
      (calculate_capacity_requirements n dts).total_bandwidth_required =
        pyRound2 ((dts.map (fun p => bandwidth_per_device_get p.1 * (p.2 : ℚ))).sum * 1.3)
    ∧ (calculate_capacity_requirements n dts).aps_for_capacity =
        ⌈(dts.map (fun p => bandwidth_per_device_get p.1 * (p.2 : ℚ))).sum * 1.3 / 150⌉)
  ∧ (∀ s : String, s ∉ bandwidth_per_device.map Prod.fst →
      bandwidth_per_device_get s = 1)
  ∧ (calculate_capacity_requirements 500 example_device_types).total_bandwidth_required
      = 503.75
  ∧ (calculate_capacity_requirements 500 example_device_types).aps_for_capacity = 4 := by
  have hfold : ∀ dts : List (String × ℕ),
      dts.foldl (fun acc p => acc + bandwidth_per_device_get p.1 * (p.2 : ℚ)) 0 =
      (dts.map (fun p => bandwidth_per_device_get p.1 * (p.2 : ℚ))).sum := by
    intro dts
    rw [foldl_add_map (fun p => bandwidth_per_device_get p.1 * (p.2 : ℚ)) dts 0,
      zero_add]
  have hex : (example_device_types.foldl
      (fun acc p => acc + bandwidth_per_device_get p.1 * (p.2 : ℚ)) 0) * 1.3 = 503.75 := by
    simp [example_device_types, List.foldl, bandwidth_per_device_get,
      bandwidth_per_device, List.lookup]
    norm_num
  refine ⟨fun n dts => ⟨?_, ?_⟩, ?_, ?_, ?_⟩
  · show pyRound2 ((dts.foldl (fun acc p => acc + bandwidth_per_device_get p.1 *
      (p.2 : ℚ)) 0) * 1.3) = _
    rw [hfold]
  · show (⌈(dts.foldl (fun acc p => acc + bandwidth_per_device_get p.1 *
      (p.2 : ℚ)) 0) * 1.3 / 150⌉ : ℤ) = _
    rw [hfold]
  · intro s hs
    unfold bandwidth_per_device_get
    rw [lookup_eq_none_of_not_mem_keys bandwidth_per_device s hs]
    rfl
  · show pyRound2 ((example_device_types.foldl
      (fun acc p => acc + bandwidth_per_device_get p.1 * (p.2 : ℚ)) 0) * 1.3) = 503.75
    rw [hex, pyRound2_of_int 503.75 50375 (by norm_num)]
    norm_num
  · show (⌈(example_device_types.foldl
      (fun acc p => acc + bandwidth_per_device_get p.1 * (p.2 : ℚ)) 0) * 1.3 / 150⌉ : ℤ)
      = 4
    rw [hex, Int.ceil_eq_iff]
    norm_num

/-- C4 witness: an unrecognized device-type label is outside the lookup
table and receives the default weight 1. -/
theorem calculate_capacity_requirements_spec_witness :
    ("conveyor_robot" ∉ bandwidth_per_device.map Prod.fst)
  ∧ bandwidth_per_device_get "conveyor_robot" = 1 :=
  ⟨by decide, calculate_capacity_requirements_spec.2.1 "conveyor_robot" (by decide)⟩

/-- C2: the report's recommended AP count is the maximum of the layout's
total AP count and the capacity-driven AP count, for every input and
random draw; on the 200×300×12 example facility with the example device
mix this is max(54, 4) = 54. -/
theorem final_ap_count_spec :
    (∀ (name : String) (dims : Dimensions) (dev : DeviceInfo)
        (sel : List (Fin interference_sources.length)),
      (generate_optimization_report name dims dev sel).recommended_aps =
        max (analyze_warehouse_layout dims.width dims.length dims.height).total_aps
          (calculate_capacity_requirements dev.total_devices dev.device_types).aps_for_capacity)
  ∧ (∀ sel : List (Fin interference_sources.length),
      (generate_optimization_report "FC-EXAMPLE-01" example_dimensions example_device_info
        sel).recommended_aps = 54)
  ∧ (analyze_warehouse_layout 200 300 12).total_aps = 54
  ∧ (calculate_capacity_requirements 500 example_device_types).aps_for_capacity = 4
  ∧ max (54 : ℤ) 4 = 54 := by
  have hlay : (analyze_warehouse_layout 200 300 12).total_aps = 54 :=
    analyze_warehouse_layout_example_spec.2.2.2.2.1
  have hcap : (calculate_capacity_requirements 500 example_device_types).aps_for_capacity
      = 4 := calculate_capacity_requirements_spec.2.2.2
  refine ⟨fun name dims dev sel => rfl, ?_, hlay, hcap, by decide⟩
  intro sel
  show max (analyze_warehouse_layout 200 300 12).total_aps
    (calculate_capacity_requirements 500 example_device_types).aps_for_capacity = 54
  rw [hlay, hcap]
  decide

/-- C7: whatever the random source chose, `detect_interference_sources`
returns between 2 and 4 entries, each a member of the fixed 5-entry
catalog, with no repeats within one sample. -/
theorem detect_interference_sources_spec
    (sel : List (Fin interference_sources.length))
    (hlen2 : 2 ≤ sel.length) (hlen4 : sel.length ≤ 4) (hnodup : sel.Nodup) :
    2 ≤ (detect_interference_sources sel).length
  ∧ (detect_interference_sources sel).length ≤ 4
  ∧ (∀ s ∈ detect_interference_sources sel, s ∈ interference_sources)
  ∧ (detect_interference_sources sel).Nodup := by
  unfold detect_interference_sources
  rw [List.length_map]
  refine ⟨hlen2, hlen4, ?_, ?_⟩
  · intro s hs
    rw [List.mem_map] at hs
    obtain ⟨i, _, hi⟩ := hs
    rw [← hi]
    exact interference_sources.get_mem i.1 i.2
  · apply List.Nodup.map ?_ hnodup
    rw [← List.nodup_iff_injective_get]
    decide

/-- C7 witness: the concrete draw of catalog indices 0 and 1 satisfies the
random-source contract and yields 2 distinct catalog entries. -/
theorem detect_interference_sources_spec_witness :
    2 ≤ (detect_interference_sources sample_sel).length
  ∧ (detect_interference_sources sample_sel).length ≤ 4
  ∧ (∀ s ∈ detect_interference_sources sample_sel, s ∈ interference_sources)
  ∧ (detect_interference_sources sample_sel).Nodup :=
  detect_interference_sources_spec sample_sel (by decide) (by decide) (by decide)

/-- C8: `analyze_warehouse_layout` and `calculate_capacity_requirements`
are deterministic — identical arguments give identical results — and
inside `generate_optimization_report` their outputs do not depend on the
random draw fed to the interference sampler. -/
theorem determinism_spec :
    (∀ w l h : ℚ, analyze_warehouse_layout w l h = analyze_warehouse_layout w l h)
  ∧ (∀ (n : ℕ) (dts : List (String × ℕ)),
      calculate_capacity_requirements n dts = calculate_capacity_requirements n dts)
  ∧ ∀ (name : String) (dims : Dimensions) (dev : DeviceInfo)
      (sel1 sel2 : List (Fin interference_sources.length)),
      (generate_optimization_report name dims dev sel1).layout_analysis =
        (generate_optimization_report name dims dev sel2).layout_analysis
    ∧ (generate_optimization_report name dims dev sel1).capacity_analysis =
        (generate_optimization_report name dims dev sel2).capacity_analysis :=
  ⟨fun _ _ _ => rfl, fun _ _ => rfl, fun _ _ _ _ _ => ⟨rfl, rfl⟩⟩

/-- C9: with the report file absent, `visualize_channel_plan` returns
normally with the run-the-optimizer-first message and raises no
exception. -/
theorem visualize_channel_plan_missing_report :
    visualize_channel_plan none =
      Except.ok ["No report found. Run channel_optimizer.py first."]
  ∧ (visualize_channel_plan none).isOk = true :=
  ⟨rfl, rfl⟩

end ChannelOpt
